import Mathlib

/-!
Verification of the inbox-relay bridge scripts of this repository
(`slack_bridge.py`, `crm_bridge.py`, `twilio_bridge.py`) and of the
Twitter skill's OAuth/credential logic (`twitter_skill.py`), against the
natural-language specification.

Modelling conventions (shallow embedding):
* Python strings are modelled by `String` (and, where character-level
  behaviour matters, by `List Char`); Python's `str.strip`, `str.split`,
  slicing and truthiness are re-implemented below under `py*` names.
* Python dicts with tuple keys (the `PENDING_WORK` map) are modelled as
  association lists whose well-formedness invariant is key-uniqueness.
* Wall-clock times are `Nat` (Slack bridge) or `Int` (Twitter skill)
  seconds; `time.time()` is passed in explicitly as `now`.
* Network and subprocess interactions are oracles passed as arguments:
  HTTP responses become `Option`/sum values, the external CLI becomes a
  `RelayOutcome` value or a `relay` function, and each observable API
  call of the bridge (reactions, chat posts, SMS sends) is recorded in an
  effect trace. Console prints and the append-only inbox log are not
  sender-visible and are not part of the traces.
-/

set_option autoImplicit false

/-! ## Python string semantics helpers -/

/-- The characters Python's `str.strip()` and `\s` treat as whitespace
(ASCII fragment; the scripts only handle ASCII whitespace). -/
def pyIsSpace (c : Char) : Bool :=
  c = ' ' || c = '\t' || c = '\n' || c = '\x0d' || c = '\x0b' || c = '\x0c'

/-- Python `str.strip()` on a character list. -/
def pyStripL (l : List Char) : List Char :=
  ((l.dropWhile pyIsSpace).reverse.dropWhile pyIsSpace).reverse

/-- Python `str.strip()`. -/
def pyStrip (s : String) : String :=
  (pyStripL s.data).asString

/-- Python slicing `s[:n]`. -/
def pyTake (n : Nat) (s : String) : String :=
  (s.data.take n).asString

/-- Python `x or d` for an optional string `x` (`None` and `""` are falsy). -/
def pyOrStr (o : Option String) (d : String) : String :=
  match o with
  | none => d
  | some s => if s = "" then d else s

/-- Python truthiness of an optional string (`None` and `""` are falsy). -/
def pyTruthy (o : Option String) : Bool :=
  match o with
  | none => false
  | some s => decide (s ≠ "")

/-- Python f-string interpolation of an `Optional[str]` (`None` prints as `"None"`). -/
def pyFmtOpt (o : Option String) : String :=
  match o with
  | none => "None"
  | some s => s

/-- Python `s.split(sep)` for a one-character separator: splits at every
occurrence, keeping empty fragments (`"".split("|") == [""]`). -/
def pySplit (sep : Char) : List Char → List (List Char)
  | [] => [[]]
  | c :: rest =>
    let r := pySplit sep rest
    if c = sep then [] :: r
    else
      match r with
      | [] => [[c]]
      | h :: t => (c :: h) :: t

/-- Index of the first occurrence of `pat` in `l`, if any. -/
def findSub (pat : List Char) : List Char → Option Nat
  | [] => if pat = [] then some 0 else none
  | c :: rest =>
    if pat.isPrefixOf (c :: rest) then some 0
    else (findSub pat rest).map (· + 1)

/-- `"<thinking>"` (10 characters). -/
def thinkOpen : List Char := "<thinking>".data

/-- `"</thinking>"` (11 characters). -/
def thinkClose : List Char := "</thinking>".data

/-- One pass of `re.sub(r"<thinking>.*?</thinking>\s*", "", s, flags=DOTALL)`
per fuel step: remove the leftmost non-greedy `<thinking>...</thinking>`
match plus trailing whitespace, then continue after the removal point. -/
def stripThinkingAux : Nat → List Char → List Char
  | 0, l => l
  | Nat.succ fuel, l =>
    match findSub thinkOpen l with
    | none => l
    | some i =>
      let rest := l.drop (i + 10)
      match findSub thinkClose rest with
      | none => l
      | some j =>
        l.take i ++ stripThinkingAux fuel ((rest.drop (j + 11)).dropWhile pyIsSpace)

/-- Strip every `<thinking>...</thinking>` block (and trailing whitespace)
from a reply, as the bridges do before posting. -/
def stripThinking (s : String) : String :=
  (stripThinkingAux s.data.length s.data).asString

/-- Outcome of one spawn of the external `claude` CLI subprocess, as seen
by a bridge's `run_claude_code`: normal completion with captured stdout
and stderr, `subprocess.TimeoutExpired`, `FileNotFoundError` (the binary
is absent), or any other exception (with its `str(e)` message). -/
inductive RelayOutcome where
  | success (stdout stderr : String)
  | timeout
  | notFound (msg : String)
  | otherError (msg : String)
deriving DecidableEq

/-! ## Slack bridge: pending-work tracker (`slack_bridge.py`) -/

namespace SlackBridge

/-- One value of the `PENDING_WORK` dict: the fields stored by
`mark_work_started` plus the `retry_count` that `cleanup_stuck_work`
reads with default 0 (`info.get("retry_count", 0)`). -/
structure WorkInfo where
  start_time : Nat
  text : String
  user_id : String
  thread_ts : Option String
  channel : String
  retry_count : Nat
deriving DecidableEq

/-- A `PENDING_WORK` key: the `(channel, ts)` tuple. -/
abbrev WorkKey := String × String

/-- The `PENDING_WORK` dict, as an association list (insertion-ordered,
like a Python dict). -/
abbrev PendingWork := List (WorkKey × WorkInfo)

/-- `WORK_TIMEOUT = 300` seconds. -/
def WORK_TIMEOUT : Nat := 300

/-- Python dict assignment `d[k] = v`: overwrite in place if the key is
present, else append at the end. -/
def dictInsert (k : WorkKey) (v : WorkInfo) : PendingWork → PendingWork
  | [] => [(k, v)]
  | kv :: rest => if kv.1 = k then (k, v) :: rest else kv :: dictInsert k v rest

/-- Python `d.pop(k, None)`: remove the key if present. -/
def dictPop (k : WorkKey) (m : PendingWork) : PendingWork :=
  m.filter (fun kv => decide (kv.1 ≠ k))

/-- `mark_work_started`: track that work on `(channel, ts)` began `now`. -/
def mark_work_started (st : PendingWork) (channel ts text user_id : String)
    (thread_ts : Option String) (now : Nat) : PendingWork :=
  dictInsert (channel, ts)
    { start_time := now, text := text, user_id := user_id,
      thread_ts := thread_ts, channel := channel, retry_count := 0 } st

/-- `mark_work_completed`: drop `(channel, ts)` from the pending map. -/
def mark_work_completed (st : PendingWork) (channel ts : String) : PendingWork :=
  dictPop (channel, ts) st

/-- A mutation of the `PENDING_WORK` map issued by the message handler. -/
inductive WorkOp where
  | started (channel ts text user_id : String) (thread_ts : Option String) (now : Nat)
  | completed (channel ts : String)
deriving DecidableEq

/-- Apply one tracker mutation. -/
def applyOp (st : PendingWork) : WorkOp → PendingWork
  | .started channel ts text user_id thread_ts now =>
      mark_work_started st channel ts text user_id thread_ts now
  | .completed channel ts => mark_work_completed st channel ts

/-- Key-uniqueness: the well-formedness invariant of a Python dict. -/
def keysNodup (st : PendingWork) : Prop :=
  (st.map Prod.fst).Nodup

instance (st : PendingWork) : Decidable (keysNodup st) := by
  unfold keysNodup; infer_instance

theorem dictInsert_map_fst_of_mem {k : WorkKey} {st : PendingWork}
    (h : k ∈ st.map Prod.fst) (v : WorkInfo) :
    (dictInsert k v st).map Prod.fst = st.map Prod.fst := by
  induction st with
  | nil => simp at h
  | cons kv rest ih =>
    by_cases hk : kv.1 = k
    · simp [dictInsert, hk]
    · simp only [List.map_cons, List.mem_cons] at h
      rcases h with h | h
      · exact absurd h.symm hk
      · simp [dictInsert, hk, ih h]

theorem dictInsert_map_fst_of_not_mem {k : WorkKey} {st : PendingWork}
    (h : k ∉ st.map Prod.fst) (v : WorkInfo) :
    (dictInsert k v st).map Prod.fst = st.map Prod.fst ++ [k] := by
  induction st with
  | nil => simp [dictInsert]
  | cons kv rest ih =>
    simp only [List.map_cons, List.mem_cons, not_or] at h
    have hk : kv.1 ≠ k := fun e => h.1 e.symm
    simp [dictInsert, hk, ih h.2]

theorem dictInsert_keysNodup {k : WorkKey} {v : WorkInfo} {st : PendingWork}
    (h : keysNodup st) : keysNodup (dictInsert k v st) := by
  unfold keysNodup at *
  by_cases hm : k ∈ st.map Prod.fst
  · rwa [dictInsert_map_fst_of_mem hm]
  · rw [dictInsert_map_fst_of_not_mem hm]
    simpa using List.Nodup.append h (by simp) (by simpa using hm)

theorem dictPop_keysNodup {k : WorkKey} {st : PendingWork}
    (h : keysNodup st) : keysNodup (dictPop k st) := by
  unfold keysNodup at *
  exact (((List.filter_sublist st).map Prod.fst).nodup h)

theorem applyOp_keysNodup {st : PendingWork} (h : keysNodup st) (op : WorkOp) :
    keysNodup (applyOp st op) := by
  cases op with
  | started c ts t u tts now => exact dictInsert_keysNodup h
  | completed c ts => exact dictPop_keysNodup h

theorem foldl_applyOp_keysNodup (ops : List WorkOp) :
    ∀ st : PendingWork, keysNodup st → keysNodup (ops.foldl applyOp st) := by
  induction ops with
  | nil => exact fun st h => h
  | cons op rest ih => exact fun st h => ih (applyOp st op) (applyOp_keysNodup h op)

end SlackBridge

/-- C3: any sequence of `mark_work_started` / `mark_work_completed` calls keeps
at most one `PENDING_WORK` entry per `(channel, ts)` key, and a second
`mark_work_started` for an already-tracked key overwrites in place, leaving
the tracked key list unchanged. -/
theorem c3_unique_keys :
    (∀ ops : List SlackBridge.WorkOp,
        SlackBridge.keysNodup (ops.foldl SlackBridge.applyOp []))
    ∧ (∀ (st : SlackBridge.PendingWork) (c ts text uid : String)
          (tts : Option String) (now : Nat),
        (c, ts) ∈ st.map Prod.fst →
        (SlackBridge.mark_work_started st c ts text uid tts now).map Prod.fst
          = st.map Prod.fst) := by
  constructor
  · intro ops
    exact SlackBridge.foldl_applyOp_keysNodup ops [] (by simp [SlackBridge.keysNodup])
  · intro st c ts text uid tts now h
    exact SlackBridge.dictInsert_map_fst_of_mem h _

/-- Witness for C3 at a concrete state: re-marking the already-tracked key
`("C", "1")` leaves the key list unchanged. -/
theorem c3_witness :
    (("C", "1") ∈ ([((("C" : String), ("1" : String)),
        ({ start_time := 0, text := "hi", user_id := "U", thread_ts := none,
           channel := "C", retry_count := 0 } : SlackBridge.WorkInfo))] :
        SlackBridge.PendingWork).map Prod.fst)
    ∧ (SlackBridge.mark_work_started
        [((("C" : String), ("1" : String)),
          { start_time := 0, text := "hi", user_id := "U", thread_ts := none,
            channel := "C", retry_count := 0 })]
        "C" "1" "again" "U" none 500).map Prod.fst
        = ([((("C" : String), ("1" : String)),
            ({ start_time := 0, text := "hi", user_id := "U", thread_ts := none,
               channel := "C", retry_count := 0 } : SlackBridge.WorkInfo))] :
            SlackBridge.PendingWork).map Prod.fst :=
  ⟨by decide, c3_unique_keys.2 _ "C" "1" "again" "U" none 500 (by decide)⟩

/-! ## Slack bridge: observable effects and stuck-work cleanup -/

namespace SlackBridge

/-- An observable Slack API call made by the bridge. `relayRun` records an
invocation of the external CLI (`run_claude_code`); `chatDelete` records
deletion of the transient progress message (whose server-assigned `ts` is
outside the model). -/
inductive Effect where
  | reactionAdd (channel ts emoji : String)
  | reactionRemove (channel ts emoji : String)
  | chatPost (channel text : String) (thread_ts : Option String)
  | chatDelete (channel : String)
  | relayRun (text user_id : String)
deriving DecidableEq

def EMOJI_WORKING : String := "hourglass_flowing_sand"
def EMOJI_DONE : String := "white_check_mark"
def EMOJI_ACK : String := "eyes"
def EMOJI_ERROR : String := "x"
def EMOJI_RETRY : String := "arrows_counterclockwise"

/-- The chunks `text[i:i+3900]` produced by `send_slack_response` when the
text exceeds Slack's message limit. -/
def pyChunks (l : List Char) : List (List Char) :=
  if h : l = [] then [] else l.take 3900 :: pyChunks (l.drop 3900)
termination_by l.length
decreasing_by
  have hl : 0 < l.length := List.length_pos.mpr h
  simp only [List.length_drop]
  omega

/-- `send_slack_response`: post the text, splitting into `(i/n) `-prefixed
chunks when it exceeds 3900 characters. -/
def send_slack_response (channel text : String) (thread_ts : Option String) :
    List Effect :=
  if text.length ≤ 3900 then [Effect.chatPost channel text thread_ts]
  else
    let cs := pyChunks text.data
    cs.enum.map (fun p =>
      Effect.chatPost channel
        ((if cs.length > 1 then
            "(" ++ toString (p.1 + 1) ++ "/" ++ toString cs.length ++ ") "
          else "") ++ p.2.asString)
        thread_ts)

/-- The apology posted when a stuck item is given up on. -/
def failureApology : String :=
  "Sorry, that request failed after retrying. Please try again later."

/-- The effects `cleanup_stuck_work` emits for one stuck `(channel, ts)`
item. First timeout (`retry_count == 0`): add the retry emoji, re-invoke
the relay synchronously, post its reply, swap the emojis to done. Already
retried: swap the emojis to error and post the failure apology. In both
branches the caller removes the item from the map. -/
def processStuck (now : Nat) (relay : WorkInfo → String) (channel ts : String)
    (info : WorkInfo) : List Effect :=
  if info.retry_count = 0 then
    Effect.reactionAdd channel ts EMOJI_RETRY
      :: Effect.relayRun info.text info.user_id
      :: (send_slack_response channel (relay info) (some (pyOrStr info.thread_ts ts))
          ++ [Effect.reactionRemove channel ts EMOJI_WORKING,
              Effect.reactionRemove channel ts EMOJI_RETRY,
              Effect.reactionAdd channel ts EMOJI_DONE])
  else
    [Effect.reactionRemove channel ts EMOJI_WORKING,
     Effect.reactionRemove channel ts EMOJI_RETRY,
     Effect.reactionAdd channel ts EMOJI_ERROR,
     Effect.chatPost channel failureApology (some (pyOrStr info.thread_ts ts))]

/-- `cleanup_stuck_work`: snapshot the items whose elapsed time exceeds
`WORK_TIMEOUT`, then handle each in order (the relay outcome of the
synchronous in-pass retry is the oracle `relay`). Returns the new map and
the emitted effect trace. -/
def cleanup_stuck_work (now : Nat) (relay : WorkInfo → String) (st : PendingWork) :
    PendingWork × List Effect :=
  let stuck := st.filter (fun kv => decide (WORK_TIMEOUT < now - kv.2.start_time))
  stuck.foldl
    (fun acc kv =>
      (mark_work_completed acc.1 kv.1.1 kv.1.2,
       acc.2 ++ processStuck now relay kv.1.1 kv.1.2 kv.2))
    (st, [])

def isChatPost : Effect → Bool
  | .chatPost _ _ _ => true
  | _ => false

def isRelayRun : Effect → Bool
  | .relayRun _ _ => true
  | _ => false

theorem send_slack_response_has_post (channel text : String)
    (thread_ts : Option String) :
    1 ≤ (send_slack_response channel text thread_ts).countP isChatPost := by
  unfold send_slack_response
  split
  · simp [isChatPost]
  · rename_i hlen
    have hne : text.data ≠ [] := by
      intro h
      have : text.length = 0 := by
        show text.data.length = 0
        simp [h]
      omega
    rw [pyChunks, dif_neg hne]
    simp [List.enum_cons, List.countP_cons, isChatPost]

theorem send_slack_response_no_relay (channel text : String)
    (thread_ts : Option String) :
    (send_slack_response channel text thread_ts).countP isRelayRun = 0 := by
  unfold send_slack_response
  split
  · simp [isRelayRun]
  · rw [List.countP_eq_zero]
    intro e he
    obtain ⟨p, _, rfl⟩ := List.mem_map.mp he
    simp [isRelayRun]

theorem cleanup_foldl_spec (now : Nat) (relay : WorkInfo → String)
    (L : List (WorkKey × WorkInfo)) :
    ∀ (s : PendingWork) (e : List Effect),
    L.foldl
      (fun acc kv =>
        (mark_work_completed acc.1 kv.1.1 kv.1.2,
         acc.2 ++ processStuck now relay kv.1.1 kv.1.2 kv.2))
      (s, e)
    = (L.foldl (fun acc kv => dictPop kv.1 acc) s,
       e ++ (L.map (fun kv => processStuck now relay kv.1.1 kv.1.2 kv.2)).flatten) := by
  induction L with
  | nil => intro s e; simp
  | cons a L ih =>
    intro s e
    simp only [List.foldl_cons, List.map_cons, List.flatten_cons]
    rw [ih]
    simp [mark_work_completed, List.append_assoc]

theorem foldl_dictPop_eq_filter (L : List (WorkKey × WorkInfo)) :
    ∀ s : PendingWork,
    L.foldl (fun acc kv => dictPop kv.1 acc) s
      = s.filter (fun kv => L.all (fun x => decide (kv.1 ≠ x.1))) := by
  induction L with
  | nil => intro s; simp
  | cons a L ih =>
    intro s
    simp only [List.foldl_cons]
    rw [ih, dictPop, List.filter_filter]
    apply List.filter_congr
    intro kv _
    simp [Bool.and_comm]

theorem all_ne_stuck_eq (now : Nat) (st : PendingWork) (hnd : keysNodup st)
    {kv : WorkKey × WorkInfo} (hkv : kv ∈ st) :
    ((st.filter (fun x => decide (WORK_TIMEOUT < now - x.2.start_time))).all
        (fun x => decide (kv.1 ≠ x.1)))
      = decide (now - kv.2.start_time ≤ WORK_TIMEOUT) := by
  by_cases hs : WORK_TIMEOUT < now - kv.2.start_time
  · have hmem : kv ∈ st.filter (fun x => decide (WORK_TIMEOUT < now - x.2.start_time)) :=
      List.mem_filter.mpr ⟨hkv, by simpa using hs⟩
    have hL : ((st.filter (fun x => decide (WORK_TIMEOUT < now - x.2.start_time))).all
        (fun x => decide (kv.1 ≠ x.1))) = false := by
      rw [List.all_eq_false]
      exact ⟨kv, hmem, by simp⟩
    have hR : ¬ (now - kv.2.start_time ≤ WORK_TIMEOUT) := by omega
    rw [hL, decide_eq_false hR]
  · have hle : now - kv.2.start_time ≤ WORK_TIMEOUT := by omega
    have hL : ∀ x ∈ st.filter (fun x => decide (WORK_TIMEOUT < now - x.2.start_time)),
        kv.1 ≠ x.1 := by
      intro x hx hfeq
      have hx' := List.mem_filter.mp hx
      have : kv = x := List.inj_on_of_nodup_map hnd hkv hx'.1 hfeq
      subst this
      exact hs (by simpa using hx'.2)
    rw [decide_eq_true hle, List.all_eq_true]
    intro x hx
    exact decide_eq_true (hL x hx)

end SlackBridge

/-- C1 (amended): in `cleanup_stuck_work`, every item whose elapsed time
exceeds the 300-second `WORK_TIMEOUT` is handled and removed within that
same cleanup pass (the result map is exactly the non-timed-out items, so
`retry_count` never exceeds 1 on any retained item); a timed-out item with
`retry_count = 0` triggers exactly one synchronous relay retry and at
least one reply post (possibly the canned timeout reply) to its thread;
a timed-out item that entered the pass with `retry_count ≥ 1` triggers no
relay and exactly one failure apology post to its thread. Hence no
timed-out item is removed without a posted notification. -/
theorem c1_cleanup_behaviour (now : Nat) (relay : SlackBridge.WorkInfo → String)
    (st : SlackBridge.PendingWork) (hnd : SlackBridge.keysNodup st) :
    (SlackBridge.cleanup_stuck_work now relay st).1
        = st.filter (fun kv => decide (now - kv.2.start_time ≤ SlackBridge.WORK_TIMEOUT))
    ∧ (SlackBridge.cleanup_stuck_work now relay st).2
        = ((st.filter (fun kv =>
              decide (SlackBridge.WORK_TIMEOUT < now - kv.2.start_time))).map
            (fun kv => SlackBridge.processStuck now relay kv.1.1 kv.1.2 kv.2)).flatten
    ∧ (∀ (channel ts : String) (info : SlackBridge.WorkInfo), info.retry_count = 0 →
        (SlackBridge.processStuck now relay channel ts info).countP
            SlackBridge.isRelayRun = 1
        ∧ 1 ≤ (SlackBridge.processStuck now relay channel ts info).countP
            SlackBridge.isChatPost)
    ∧ (∀ (channel ts : String) (info : SlackBridge.WorkInfo), 1 ≤ info.retry_count →
        (SlackBridge.processStuck now relay channel ts info).countP
            SlackBridge.isRelayRun = 0
        ∧ (SlackBridge.processStuck now relay channel ts info).count
            (SlackBridge.Effect.chatPost channel SlackBridge.failureApology
              (some (pyOrStr info.thread_ts ts))) = 1) := by
  refine ⟨?_, ?_, ?_, ?_⟩
  · simp only [SlackBridge.cleanup_stuck_work]
    rw [SlackBridge.cleanup_foldl_spec]
    simp only
    rw [SlackBridge.foldl_dictPop_eq_filter]
    apply List.filter_congr
    intro kv hkv
    exact SlackBridge.all_ne_stuck_eq now st hnd hkv
  · simp only [SlackBridge.cleanup_stuck_work]
    rw [SlackBridge.cleanup_foldl_spec]
    simp
  · intro channel ts info h
    constructor
    · simp [SlackBridge.processStuck, h, List.countP_cons, List.countP_append,
        SlackBridge.isRelayRun, SlackBridge.send_slack_response_no_relay]
    · have hp := SlackBridge.send_slack_response_has_post channel (relay info)
        (some (pyOrStr info.thread_ts ts))
      refine le_trans hp (List.Sublist.countP_le _ ?_)
      simp only [SlackBridge.processStuck, if_pos h]
      exact ((List.sublist_append_left _ _).cons _).cons _
  · intro channel ts info h
    have h0 : ¬ info.retry_count = 0 := by omega
    constructor
    · simp [SlackBridge.processStuck, h0, List.countP_cons, SlackBridge.isRelayRun]
    · simp [SlackBridge.processStuck, h0, List.count_cons]

/-- Witness for C1 (amended) at a concrete two-item map (one first-timeout
item, one already-retried item), `now = 400`. -/
theorem c1_witness :
    SlackBridge.keysNodup
      [((("C" : String), ("1" : String)),
        ({ start_time := 0, text := "hi", user_id := "U", thread_ts := none,
           channel := "C", retry_count := 0 } : SlackBridge.WorkInfo)),
       ((("C" : String), ("2" : String)),
        ({ start_time := 50, text := "yo", user_id := "U", thread_ts := none,
           channel := "C", retry_count := 1 } : SlackBridge.WorkInfo))]
    ∧ (SlackBridge.cleanup_stuck_work 400 (fun _ => "ok")
        [((("C" : String), ("1" : String)),
          { start_time := 0, text := "hi", user_id := "U", thread_ts := none,
            channel := "C", retry_count := 0 }),
         ((("C" : String), ("2" : String)),
          { start_time := 50, text := "yo", user_id := "U", thread_ts := none,
            channel := "C", retry_count := 1 })]).1
      = List.filter (fun kv => decide (400 - kv.2.start_time ≤ SlackBridge.WORK_TIMEOUT))
        [((("C" : String), ("1" : String)),
          { start_time := 0, text := "hi", user_id := "U", thread_ts := none,
            channel := "C", retry_count := 0 }),
         ((("C" : String), ("2" : String)),
          { start_time := 50, text := "yo", user_id := "U", thread_ts := none,
            channel := "C", retry_count := 1 })] :=
  ⟨by decide,
   (c1_cleanup_behaviour 400 (fun _ => "ok")
     [((("C" : String), ("1" : String)),
       { start_time := 0, text := "hi", user_id := "U", thread_ts := none,
         channel := "C", retry_count := 0 }),
      ((("C" : String), ("2" : String)),
       { start_time := 50, text := "yo", user_id := "U", thread_ts := none,
         channel := "C", retry_count := 1 })] (by decide)).1⟩

/-- C1 counterexample: a first-timeout item whose synchronous retry itself
stalls (the relay returns `run_claude_code`'s canned subprocess-timeout
reply) is removed by that same cleanup pass with the canned reply posted —
contrary to the claim, it does not stay pending for the next cleanup pass
and no failure apology is ever posted for it. -/
theorem c1_counterexample :
    (SlackBridge.cleanup_stuck_work 301
        (fun _ => "Sorry, that took too long to process (10 min timeout).")
        [((("C" : String), ("1" : String)),
          { start_time := 0, text := "hi", user_id := "U", thread_ts := none,
            channel := "C", retry_count := 0 })]).1 = []
    ∧ (SlackBridge.cleanup_stuck_work 301
        (fun _ => "Sorry, that took too long to process (10 min timeout).")
        [((("C" : String), ("1" : String)),
          { start_time := 0, text := "hi", user_id := "U", thread_ts := none,
            channel := "C", retry_count := 0 })]).2
      = [SlackBridge.Effect.reactionAdd "C" "1" SlackBridge.EMOJI_RETRY,
         SlackBridge.Effect.relayRun "hi" "U",
         SlackBridge.Effect.chatPost "C"
           ("Sorry, that took too long to process (10 min timeout).") (some "1"),
         SlackBridge.Effect.reactionRemove "C" "1" SlackBridge.EMOJI_WORKING,
         SlackBridge.Effect.reactionRemove "C" "1" SlackBridge.EMOJI_RETRY,
         SlackBridge.Effect.reactionAdd "C" "1" SlackBridge.EMOJI_DONE]
    ∧ (SlackBridge.cleanup_stuck_work 301
        (fun _ => "Sorry, that took too long to process (10 min timeout).")
        [((("C" : String), ("1" : String)),
          { start_time := 0, text := "hi", user_id := "U", thread_ts := none,
            channel := "C", retry_count := 0 })]).2.count
        (SlackBridge.Effect.chatPost "C" SlackBridge.failureApology (some "1")) = 0 := by
  refine ⟨by decide, by decide, by decide⟩

/-! ## Slack bridge: prompt building, relay outcome mapping, message handler -/

namespace SlackBridge

/-- The context preamble `run_claude_code` prepends for a sender with no
`USER_SESSIONS` entry (the first message of a conversation); the raw
message is appended after the trailing `"First message: "`. -/
def slackPreText (user_name : String) (channel_id thread_ts : Option String) : String :=
  let thread_flag := if pyTruthy thread_ts then " -t " ++ thread_ts.getD "" else ""
  let channel_for_upload := pyOrStr channel_id ("CHANNEL_ID")
  "You are responding to Slack messages from " ++ user_name
    ++ ". Keep responses concise and conversational (Slack-appropriate).\n\nYou have full access to this workspace including Obsidian vault, skills, and tools. You can read files, send emails, etc.\n\nWhen the user confirms something (like \"yes\", \"do it\", \"send it\"), execute the action you proposed.\n\nIMPORTANT CONTEXT:\n- Channel ID: "
    ++ channel_for_upload
    ++ "\n- Thread TS: "
    ++ pyOrStr thread_ts ("none (post to channel)")
    ++ "\n- ALWAYS respond in the same thread if one exists. Include -t "
    ++ pyFmtOpt thread_ts
    ++ " in upload commands when thread_ts is set.\n\nIMAGE GENERATION: If the user asks for an image, picture, or visual:\n1. Generate: python ~/.claude/skills/nano-banana-pro/generate_image.py \"prompt\" --output /tmp\n2. Upload to Slack: python ~/.claude/skills/slack-skill/slack_skill.py upload "
    ++ channel_for_upload
    ++ " /tmp/generated_images/[filename].png -m \"caption\""
    ++ thread_flag
    ++ "\n\nFirst message: "

/-- The `full_prompt` of `run_claude_code`: raw message for a tracked
session, preamble-wrapped message otherwise. -/
def full_prompt (sessions : List String) (user_id user_name : String)
    (channel_id thread_ts : Option String) (prompt : String) : String :=
  if user_id ∈ sessions then prompt
  else slackPreText user_name channel_id thread_ts ++ prompt

/-- The argv of the spawned subprocess (`--continue` added exactly for
tracked sessions). -/
def claude_cmd (sessions : List String) (user_id fp : String) : List String :=
  ["claude", "-p", "--dangerously-skip-permissions"]
    ++ (if user_id ∈ sessions then ["--continue"] else []) ++ [fp]

/-- The reply string `run_claude_code` returns for each subprocess
outcome (`slack_bridge.py` has no dedicated `FileNotFoundError` handler,
so an absent binary falls into the generic `except Exception` branch). -/
def run_claude_code (o : RelayOutcome) : String :=
  match o with
  | .success out err =>
    let response := pyStrip out
    let response :=
      if response = "" ∧ err ≠ "" then "Error: " ++ pyTake 500 err else response
    let response := pyStrip (stripThinking response)
    if response = "" then "I processed that but have no response." else response
  | .timeout => "Sorry, that took too long to process (10 min timeout)."
  | .notFound msg => "Error running Claude Code: " ++ pyTake 200 msg
  | .otherError msg => "Error running Claude Code: " ++ pyTake 200 msg

/-- The conversation-ending signals for which a tracked-thread reply is
only acknowledged with an emoji instead of answered. -/
def ackOnlySignals : List String :=
  ["thanks", "thank you", "thx", "ty", "cool", "nice", "great",
   "got it", "perfect", "awesome", "ok thanks", "okay thanks",
   "👍", "🙏", "✅"]

/-- Python `str.lower()` (the handled signal strings are ASCII/emoji). -/
def pyLower (s : String) : String := (s.data.map Char.toLower).asString

/-- Python `s.rstrip("!.")`. -/
def pyRstripPunct (s : String) : String :=
  ((s.data.reverse.dropWhile (fun c => c = '!' || c = '.')).reverse).asString

/-- `should_respond_to_thread_reply`: answer unless the text is a clear
end-of-conversation signal. -/
def should_respond_to_thread_reply (text user_name : String) : Bool :=
  let lower := pyStrip (pyLower text)
  !(ackOnlySignals.any (fun s => lower == s || pyRstripPunct lower == s))

/-- `text.split(">", 1)[-1].strip() if ">" in text else text`: strip the
`@mention` head from an `app_mention` text. -/
def cleanMention (text : String) : String :=
  if text.data.contains '>' then
    pyStrip ((text.data.dropWhile (fun c => c != '>')).drop 1).asString
  else text

/-- An inbound Socket Mode event: a `message` event (with its optional
`subtype` and `bot_id` fields) or an `app_mention` event. -/
inductive SlackEvent where
  | message (channel user text ts : String) (thread_ts : Option String)
      (subtype : Option String) (bot_id : Option String)
  | appMention (channel user text ts : String) (thread_ts : Option String)
deriving DecidableEq

/-- The module-level configuration read by `handle_message`:
`ALLOWED_USERS`, the keys of `ACTIVE_THREADS`, and `AUTO_RESPOND`. -/
structure SlackCtx where
  allowedUsers : List String
  activeThreads : List String
  autoRespond : Bool
deriving DecidableEq

/-- `handle_message`, returning the Slack-visible effect trace and the
pending-work mutations it issues. The inbox append, console prints and
`users_info`/`conversations_info` lookups are not sender-visible; the
`ACTIVE_THREADS` insertions after a response and the timed progress-text
updates of `run_claude_with_progress` are likewise outside the trace
(the progress post and its deletion are kept). -/
def handle_message (ctx : SlackCtx) (relay : String → String) (now : Nat) :
    SlackEvent → List Effect × List WorkOp
  | .message channel user text ts thread_ts subtype bot_id =>
    if subtype.isSome then ([], [])
    else if pyTruthy bot_id then ([], [])
    else
      let is_dm := channel.startsWith ("D")
      let is_tracked :=
        match thread_ts with
        | some t => (t != "") && ctx.activeThreads.contains t
        | none => false
      if !is_dm && !is_tracked then ([], [])
      else if ctx.allowedUsers ≠ [] ∧ user ∉ ctx.allowedUsers then ([], [])
      else if ctx.autoRespond then
        if is_tracked && !(should_respond_to_thread_reply text user) then
          ([Effect.reactionAdd channel ts EMOJI_ACK], [])
        else
          let reply_thread_ts := if is_tracked then thread_ts else none
          (Effect.reactionAdd channel ts EMOJI_WORKING
            :: Effect.chatPost channel ("⏳ Working on your request...") reply_thread_ts
            :: Effect.relayRun text user
            :: Effect.chatDelete channel
            :: (send_slack_response channel (relay text) reply_thread_ts
                ++ [Effect.reactionRemove channel ts EMOJI_WORKING,
                    Effect.reactionAdd channel ts EMOJI_DONE]),
           [WorkOp.started channel ts text user thread_ts now,
            WorkOp.completed channel ts])
      else ([], [])
  | .appMention channel user text ts thread_ts =>
    let clean_text := cleanMention text
    if ctx.allowedUsers ≠ [] ∧ user ∉ ctx.allowedUsers then
      ([Effect.reactionAdd channel ts ("no_entry")], [])
    else if ctx.autoRespond ∧ clean_text ≠ "" then
      let reply_to_thread := pyOrStr thread_ts ts
      (Effect.reactionAdd channel ts EMOJI_WORKING
        :: Effect.chatPost channel ("⏳ Working on your request...") (some reply_to_thread)
        :: Effect.relayRun clean_text user
        :: Effect.chatDelete channel
        :: (send_slack_response channel (relay clean_text) (some reply_to_thread)
            ++ [Effect.reactionRemove channel ts EMOJI_WORKING,
                Effect.reactionAdd channel ts EMOJI_DONE]),
       [WorkOp.started channel ts clean_text user thread_ts now,
        WorkOp.completed channel ts])
    else ([], [])

end SlackBridge

/-! ## Twilio SMS bridge (`twilio_bridge.py`) -/

namespace TwilioBridge

/-- The context preamble for a phone number with no `USER_SESSIONS`
entry; the raw message is appended after `"First message: "`. -/
def twilioPreText : String :=
  "You are responding to SMS text messages. Keep responses VERY concise - SMS has character limits.\n\nYou have full access to this workspace including Obsidian vault, skills, and tools.\n\nWhen the user confirms something (like \"yes\", \"do it\", \"y\"), execute the action you proposed.\n\nIMAGE GENERATION: If asked for an image:\n1. Generate: python ~/.claude/skills/nano-banana-pro/generate_image.py \"prompt\" --output /tmp\n2. Note: Images need to be hosted publicly for MMS. Mention you generated it and where it\x27s saved.\n\nFirst message: "

/-- The `full_prompt` of the SMS bridge's `run_claude_code`. -/
def full_prompt (sessions : List String) (phone prompt : String) : String :=
  if phone ∈ sessions then prompt else twilioPreText ++ prompt

/-- The argv of the spawned subprocess. -/
def claude_cmd (sessions : List String) (phone fp : String) : List String :=
  ["claude", "-p", "--dangerously-skip-permissions"]
    ++ (if phone ∈ sessions then ["--continue"] else []) ++ [fp]

/-- The reply string for each subprocess outcome (`twilio_bridge.py` has
no dedicated `FileNotFoundError` handler either). -/
def run_claude_code (o : RelayOutcome) : String :=
  match o with
  | .success out err =>
    let response := pyStrip out
    let response :=
      if response = "" ∧ err ≠ "" then "Error: " ++ pyTake 200 err else response
    let response := pyStrip (stripThinking response)
    if response = "" then "Done." else response
  | .timeout => "Sorry, that took too long (5 min timeout)."
  | .notFound msg => "Error: " ++ pyTake 100 msg
  | .otherError msg => "Error: " ++ pyTake 100 msg

/-- An observable action of the SMS webhook handler (`smsSend dest body`
is `send_sms(to, body)`). -/
inductive SmsEffect where
  | smsSend (dest body : String)
  | relayRun (text : String)
deriving DecidableEq

/-- `str(MessagingResponse())`: the empty TwiML document returned to
Twilio by every branch of the webhook. -/
def emptyTwiml : String :=
  "<?xml version=\"1.0\" encoding=\"UTF-8\"?><Response />"

/-- `handle_sms`: the `/sms` webhook. Returns the SMS effect trace (the
timed `"Still working..."` updates are outside the trace) and the HTTP
response body. The inbox appends and console prints are not
sender-visible. -/
def handle_sms (allowedNumbers : List String) (autoRespond : Bool)
    (fromNumber body0 : String) (relay : String → String) :
    List SmsEffect × String :=
  let body := pyStrip body0
  if allowedNumbers ≠ [] ∧ fromNumber ∉ allowedNumbers then ([], emptyTwiml)
  else if autoRespond ∧ body ≠ "" then
    ([SmsEffect.smsSend fromNumber ("Working on it..."),
      SmsEffect.relayRun body,
      SmsEffect.smsSend fromNumber (relay body)], emptyTwiml)
  else ([], emptyTwiml)

end TwilioBridge

/-! ## CRM bridge (`crm_bridge.py`) -/

namespace CrmBridge

/-- The `bridge_capabilities` block included in every CRM prompt. The
Python source is a plain (non-f) string, so its doubled braces remain
doubled in the final prompt; braces and apostrophes appear here as
`\x7b`/`\x7d`/`\x27` escapes. -/
def bridge_capabilities : String :=
  "\n## Platform Capabilities (Fake Idan Bridge)\n\nYou can interact with users on the CRM platform using curl. The CRM URL and bridge token are in environment variables.\n\n"
  ++ "### Send a DM to any user\n```bash\ncurl -s -X POST \"$CRM_BRIDGE_URL/api/bridge/dm\" \\\n  -H \"Authorization: Bearer $CRM_BRIDGE_TOKEN\" \\\n  -H \"Content-Type: application/json\" \\\n  -d \x27\x7b\x7b\"toUserId\": \"USER_ID\", \"content\": \"your message\"\x7d\x7d\x27\n```\n\n"
  ++ "### Post in the chat room\n```bash\ncurl -s -X POST \"$CRM_BRIDGE_URL/api/bridge/chatroom\" \\\n  -H \"Authorization: Bearer $CRM_BRIDGE_TOKEN\" \\\n  -H \"Content-Type: application/json\" \\\n  -d \x27\x7b\x7b\"content\": \"your message\"\x7d\x7d\x27\n```\n\n"
  ++ "### Post in chat room and @mention a user\n```bash\ncurl -s -X POST \"$CRM_BRIDGE_URL/api/bridge/chatroom\" \\\n  -H \"Authorization: Bearer $CRM_BRIDGE_TOKEN\" \\\n  -H \"Content-Type: application/json\" \\\n  -d \x27\x7b\x7b\"content\": \"your message\", \"mentionUserId\": \"USER_ID\"\x7d\x7d\x27\n```\n\n"
  ++ "### List all users (see who\x27s online)\n```bash\ncurl -s \"$CRM_BRIDGE_URL/api/bridge/users\" \\\n  -H \"Authorization: Bearer $CRM_BRIDGE_TOKEN\"\n```\n\n"
  ++ "### Get all Fake Idan conversations\n```bash\ncurl -s \"$CRM_BRIDGE_URL/api/bridge/conversations\" \\\n  -H \"Authorization: Bearer $CRM_BRIDGE_TOKEN\"\n```\n\n"
  ++ "### Get only conversations needing a response\n```bash\ncurl -s \"$CRM_BRIDGE_URL/api/bridge/conversations?pending=true\" \\\n  -H \"Authorization: Bearer $CRM_BRIDGE_TOKEN\"\n```\n\n"
  ++ "Use these capabilities proactively:\n- If a user asks you to message someone, send them a DM\n- If a user asks you to say something in the chat room, post it there\n- You can check who\x27s online and reach out to users\n- You act as a real participant in the system - you ARE Fake Idan\n"

/-- The admin variant of `admin_context`, before the `{workdir}` slot. -/
def adminContextPre : String :=
  "IMPORTANT: You are NOT just a chat assistant. You ARE Claude Code with full filesystem access.\nYou are working on the Investor CRM codebase located in: "

/-- The admin variant of `admin_context`, between `{workdir}` and `{bridge_caps}`. -/
def adminContextPost : String :=
  "\n\nYou MUST use your tools to make changes when requested:\n- Use Read tool to read files\n- Use Edit tool to modify files\n- Use Bash tool to run commands\n- Use Glob/Grep to search the codebase\n\nThe codebase is a Nuxt 3 app:\n- Vue components: src/components/\n- Pages: src/pages/\n- Server API: server/api/\n- Styles use Tailwind CSS\n\nWhen the user asks for UI changes, CSS changes, or code modifications:\n1. Search for the relevant file\n2. Read it to understand the structure\n3. Edit it to make the requested change\n4. Run: npm run build && fly deploy --now\n5. Tell the user the change is deployed\n\nIMPORTANT: This app runs on Fly.io. After ANY code change, you MUST build and deploy:\n  npm run build && fly deploy --now\n\nDO NOT just edit files and tell the user to deploy. YOU deploy it.\nDO NOT say you can\x27t make changes. You have full access. USE YOUR TOOLS.\n\n"

/-- The non-admin variant of `admin_context`, before the `{workdir}` slot. -/
def userContextPre : String :=
  "IMPORTANT: You are NOT just a chat assistant. You ARE Claude Code with full filesystem and platform access.\nYou are \"Fake Idan\" - a real participant on the Epoch Investor CRM platform.\nYou are working on the Investor CRM codebase located in: "

/-- The non-admin variant of `admin_context`, between `{workdir}` and `{bridge_caps}`. -/
def userContextPost : String :=
  "\n\nYou are a full member of the platform who can send DMs, post in the chat room, @mention people, and interact with everyone.\n\nYou CAN and SHOULD:\n- Send DMs to any user when asked (use the bridge API via curl)\n- Post messages in the group chat room\n- @mention users in the chat room\n- Check who\x27s online\n- Relay messages between users\n- Chat casually - you\x27re friendly, chill, and part of the team\n- Help with CRM questions, feature requests, and bug reports\n- Make code changes for feature requests and bug fixes when users ask\n- Use Read, Edit, Glob, Grep, Bash tools to modify the codebase\n- Build and deploy changes: npm run build && fly deploy --now\n\nThe codebase is a Nuxt 3 app:\n- Vue components: src/components/\n- Pages: src/pages/\n- Server API: server/api/\n- Styles use Tailwind CSS\n\nYou should NOT:\n- Reveal sensitive investor data (emails, phone numbers, financials)\n- Export bulk data\n\nIMPORTANT: When a user asks you to message someone, DM someone, or say something in the chat room - DO IT using the bridge API curl commands. You have the tools. Use them.\nWhen a user reports a bug or requests a feature - FIX IT or BUILD IT. You have full code access. After changes, deploy with: npm run build && fly deploy --now\nDO NOT say you can\x27t do things. You have full access. USE YOUR TOOLS.\n\n"

/-- `admin_context`: the per-role context, with `{workdir}` and
`{bridge_caps}` filled in by `.format`. -/
def admin_context (is_admin : Bool) (workdir : String) : String :=
  if is_admin then adminContextPre ++ workdir ++ adminContextPost ++ bridge_capabilities
  else userContextPre ++ workdir ++ userContextPost ++ bridge_capabilities

/-- Everything of the CRM `full_prompt` that precedes the user's message
(the message is interpolated at the very end, after `"User request: "`
or `"Message: "`). The CRM bridge deliberately resends this full context
with every message ("session continuation causes stale prompts"), so —
unlike the other two bridges — it does not consult `USER_SESSIONS`. -/
def promptPre (is_admin : Bool) (workdir user_name user_id : String) : String :=
  if is_admin then
    "You are \"fakeidan\" - Claude Code working on the Epoch Investor CRM.\n\n"
      ++ admin_context true workdir
      ++ "\n\nINSTRUCTIONS:\n1. When asked to make UI/code changes, IMMEDIATELY use Glob/Grep to find the relevant files\n2. Read the file to understand its structure\n3. Use Edit tool to make the change\n4. Report what you changed\n5. You can send DMs, post in chatroom, and check who\x27s online using the bridge API\n\nDO NOT refuse or say you can\x27t. You have full tool access. Act on the request.\n\nUser request: "
  else
    "You are \"Fake Idan\" - a real member of the Epoch Investor CRM platform.\nUser talking to you: "
      ++ user_name ++ " (id: " ++ user_id ++ ")\n\n"
      ++ admin_context false workdir
      ++ "\n\nKeep responses concise and chat-appropriate. You\x27re in a retro AIM-style chat window.\n\nCRITICAL: You are a REAL participant on this platform. You CAN and MUST:\n- Send DMs to other users using the bridge API (via curl in Bash)\n- Post in the group chat room\n- Check who\x27s online\n- Relay messages between users\n- Edit code, fix bugs, build features when asked\n\nWhen someone asks you to message another user or post in chat, ACTUALLY DO IT using the curl commands.\nFirst check who\x27s on the platform with the users endpoint, then send the DM or post in chat.\nDon\x27t say you can\x27t - you have full access to the bridge API via $CRM_BRIDGE_URL and $CRM_BRIDGE_TOKEN env vars.\n\nMessage: "

/-- The CRM `full_prompt`: always the full context plus the message. -/
def full_prompt (is_admin : Bool) (workdir user_name user_id prompt : String) : String :=
  promptPre is_admin workdir user_name user_id ++ prompt

/-- The argv of the spawned subprocess: the CRM bridge never passes
`--continue`. -/
def claude_cmd (fp : String) : List String :=
  ["claude", "-p", "--dangerously-skip-permissions", fp]

/-- The reply string for each subprocess outcome; this bridge does have a
dedicated `FileNotFoundError` handler. -/
def run_claude_code (o : RelayOutcome) : String :=
  match o with
  | .success out err =>
    let response := pyStrip out
    let response :=
      if response = "" ∧ err ≠ "" then "Error: " ++ pyTake 500 err else response
    let response := pyStrip (stripThinking response)
    if response = "" then "Processed, but no response generated." else response
  | .timeout => "Sorry, that took too long (5 min timeout). Try a simpler request?"
  | .notFound _ => "Error: Claude Code not found. Make sure \x27claude\x27 is in PATH."
  | .otherError msg => "Error: " ++ pyTake 200 msg

/-- The result of one poll attempt against `/api/bridge/messages`:
HTTP 200 with a message list, an HTTP error status, or a connection-level
exception. -/
inductive PollOutcome where
  | success (messages : List String)
  | httpError (code : Nat)
  | connError
deriving DecidableEq

/-- `poll_for_messages`: the returned message list and the updated
consecutive-failure counter (reset on success; incremented on HTTP
502/503/504 and on connection errors; other HTTP errors leave it
unchanged). -/
def poll_for_messages (o : PollOutcome) (failures : Nat) : List String × Nat :=
  match o with
  | .success msgs => (msgs, 0)
  | .httpError code =>
    if code = 502 ∨ code = 503 ∨ code = 504 then ([], failures + 1)
    else ([], failures)
  | .connError => ([], failures + 1)

/-- The sleep interval chosen at the bottom of `run_bridge`'s main loop:
`min(poll_interval * 2, 30)` after more than 5 consecutive failures, the
configured interval otherwise. -/
def effective_interval (poll_interval failures : Nat) : Nat :=
  if 5 < failures then min (poll_interval * 2) 30 else poll_interval

end CrmBridge

/-! ## Claims C4-C7 -/

theorem append_left_ne_right {a b : String} (h : 0 < a.length) : a ++ b ≠ b := by
  intro e
  have := congrArg String.length e
  rw [String.length_append] at this
  omega

theorem slackPreText_long (un : String) (cid tts : Option String) :
    10 < (SlackBridge.slackPreText un cid tts).length := by
  have h1 : 10 < ("You are responding to Slack messages from " : String).length := by decide
  simp only [SlackBridge.slackPreText, String.length_append]
  omega

set_option maxRecDepth 4000 in
theorem twilioPreText_long : 10 < TwilioBridge.twilioPreText.length := by decide

theorem crm_promptPre_long (is_admin : Bool) (wd un uid : String) :
    10 < (CrmBridge.promptPre is_admin wd un uid).length := by
  cases is_admin
  · have h1 : 10 < ("You are \"Fake Idan\" - a real member of the Epoch Investor CRM platform.\nUser talking to you: " : String).length := by decide
    simp only [CrmBridge.promptPre]
    rw [if_neg (by simp)]
    simp only [String.length_append]
    omega
  · have h1 : 10 < ("You are \"fakeidan\" - Claude Code working on the Epoch Investor CRM.\n\n" : String).length := by decide
    simp only [CrmBridge.promptPre, if_true, eq_self_iff_true, String.length_append]
    omega

theorem continue_ne_of_long {pre p : String} (h : 10 < pre.length) :
    ("--continue" : String) ≠ pre ++ p := by
  intro e
  have := congrArg String.length e
  rw [String.length_append] at this
  have h10 : ("--continue" : String).length = 10 := by decide
  omega

/-- C4 (amended): a sender outside a non-empty allow-list observes silence
for Slack `message` events (DMs/thread replies) and for SMS (the webhook
returns only the empty TwiML and sends nothing), but a disallowed
`app_mention` sender receives exactly one `no_entry` reaction and nothing
else — not complete silence. -/
theorem c4_disallowed_silence :
    (∀ (ctx : SlackBridge.SlackCtx) (relay : String → String) (now : Nat)
        (channel user text ts : String) (thread_ts subtype bot_id : Option String),
      ctx.allowedUsers ≠ [] → user ∉ ctx.allowedUsers →
      SlackBridge.handle_message ctx relay now
        (SlackBridge.SlackEvent.message channel user text ts thread_ts subtype bot_id)
        = ([], []))
    ∧ (∀ (ctx : SlackBridge.SlackCtx) (relay : String → String) (now : Nat)
        (channel user text ts : String) (thread_ts : Option String),
      ctx.allowedUsers ≠ [] → user ∉ ctx.allowedUsers →
      SlackBridge.handle_message ctx relay now
        (SlackBridge.SlackEvent.appMention channel user text ts thread_ts)
        = ([SlackBridge.Effect.reactionAdd channel ts ("no_entry")], []))
    ∧ (∀ (allowed : List String) (auto : Bool) (fromN body : String)
        (relay : String → String),
      allowed ≠ [] → fromN ∉ allowed →
      TwilioBridge.handle_sms allowed auto fromN body relay
        = ([], TwilioBridge.emptyTwiml)) := by
  refine ⟨?_, ?_, ?_⟩
  · intro ctx relay now channel user text ts thread_ts subtype bot_id hne hnm
    simp [SlackBridge.handle_message, hne, hnm]
  · intro ctx relay now channel user text ts thread_ts hne hnm
    simp [SlackBridge.handle_message, hne, hnm]
  · intro allowed auto fromN body relay hne hnm
    simp [TwilioBridge.handle_sms, hne, hnm]

/-- Witness for C4 (amended) at concrete senders not on the concrete
allow-lists. -/
theorem c4_witness :
    SlackBridge.handle_message
      { allowedUsers := ["U04R0EJACMR"], activeThreads := [], autoRespond := true }
      (fun _ => "ok") 7
      (SlackBridge.SlackEvent.message "D123" "UOUTSIDER" "hello" "11.0" none none none)
      = ([], [])
    ∧ TwilioBridge.handle_sms ["+15550000000"] true "+15551111111" "hi"
        (fun _ => "ok")
      = ([], TwilioBridge.emptyTwiml) :=
  ⟨c4_disallowed_silence.1
      { allowedUsers := ["U04R0EJACMR"], activeThreads := [], autoRespond := true }
      (fun _ => "ok") 7 "D123" "UOUTSIDER" "hello" "11.0" none none none
      (by decide) (by decide),
   c4_disallowed_silence.2.2 ["+15550000000"] true "+15551111111" "hi"
      (fun _ => "ok") (by decide) (by decide)⟩

/-- C4 counterexample: a disallowed sender who `@mentions` the bot does
not observe silence — the bridge adds a `no_entry` reaction to their
message. -/
theorem c4_counterexample :
    SlackBridge.handle_message
      { allowedUsers := ["U04R0EJACMR"], activeThreads := [], autoRespond := true }
      (fun _ => "ok") 7
      (SlackBridge.SlackEvent.appMention "C9" "UOUTSIDER" "<@UBOT> hello" "17.5" none)
      = ([SlackBridge.Effect.reactionAdd "C9" "17.5" ("no_entry")], [])
    ∧ (SlackBridge.handle_message
        { allowedUsers := ["U04R0EJACMR"], activeThreads := [], autoRespond := true }
        (fun _ => "ok") 7
        (SlackBridge.SlackEvent.appMention "C9" "UOUTSIDER" "<@UBOT> hello" "17.5" none)).1
      ≠ [] := by
  exact ⟨by decide, by decide⟩

/-- C5 (amended): the Slack and SMS bridges send the raw message together
with `--continue` exactly for senders tracked in `USER_SESSIONS`, and the
preamble-wrapped message without `--continue` otherwise; the CRM bridge,
however, always sends the full context preamble and never passes
`--continue`, regardless of session state. -/
theorem c5_prompt_sessions :
    (∀ (sessions : List String) (uid uname prompt : String)
        (cid tts : Option String),
      (uid ∈ sessions →
        SlackBridge.full_prompt sessions uid uname cid tts prompt = prompt
        ∧ ("--continue") ∈ SlackBridge.claude_cmd sessions uid
            (SlackBridge.full_prompt sessions uid uname cid tts prompt))
      ∧ (uid ∉ sessions →
        SlackBridge.full_prompt sessions uid uname cid tts prompt
          = SlackBridge.slackPreText uname cid tts ++ prompt
        ∧ SlackBridge.full_prompt sessions uid uname cid tts prompt ≠ prompt
        ∧ ("--continue") ∉ SlackBridge.claude_cmd sessions uid
            (SlackBridge.full_prompt sessions uid uname cid tts prompt)))
    ∧ (∀ (sessions : List String) (phone prompt : String),
      (phone ∈ sessions →
        TwilioBridge.full_prompt sessions phone prompt = prompt
        ∧ ("--continue") ∈ TwilioBridge.claude_cmd sessions phone
            (TwilioBridge.full_prompt sessions phone prompt))
      ∧ (phone ∉ sessions →
        TwilioBridge.full_prompt sessions phone prompt
          = TwilioBridge.twilioPreText ++ prompt
        ∧ TwilioBridge.full_prompt sessions phone prompt ≠ prompt
        ∧ ("--continue") ∉ TwilioBridge.claude_cmd sessions phone
            (TwilioBridge.full_prompt sessions phone prompt)))
    ∧ (∀ (is_admin : Bool) (wd un uid prompt : String),
      CrmBridge.full_prompt is_admin wd un uid prompt
        = CrmBridge.promptPre is_admin wd un uid ++ prompt
      ∧ CrmBridge.full_prompt is_admin wd un uid prompt ≠ prompt
      ∧ ("--continue") ∉ CrmBridge.claude_cmd
          (CrmBridge.full_prompt is_admin wd un uid prompt)) := by
  refine ⟨?_, ?_, ?_⟩
  · intro sessions uid uname prompt cid tts
    constructor
    · intro h
      constructor
      · simp [SlackBridge.full_prompt, h]
      · simp [SlackBridge.claude_cmd, h]
    · intro h
      refine ⟨by simp [SlackBridge.full_prompt, h], ?_, ?_⟩
      · simp only [SlackBridge.full_prompt, if_neg h]
        exact append_left_ne_right (by have := slackPreText_long uname cid tts; omega)
      · simp only [SlackBridge.full_prompt, if_neg h, SlackBridge.claude_cmd]
        simp [h]
        exact continue_ne_of_long (slackPreText_long uname cid tts)
  · intro sessions phone prompt
    constructor
    · intro h
      constructor
      · simp [TwilioBridge.full_prompt, h]
      · simp [TwilioBridge.claude_cmd, h]
    · intro h
      refine ⟨by simp [TwilioBridge.full_prompt, h], ?_, ?_⟩
      · simp only [TwilioBridge.full_prompt, if_neg h]
        exact append_left_ne_right (by have := twilioPreText_long; omega)
      · simp only [TwilioBridge.full_prompt, if_neg h, TwilioBridge.claude_cmd]
        simp [h]
        exact continue_ne_of_long twilioPreText_long
  · intro is_admin wd un uid prompt
    refine ⟨rfl, ?_, ?_⟩
    · exact append_left_ne_right (by have := crm_promptPre_long is_admin wd un uid; omega)
    · simp only [CrmBridge.full_prompt, CrmBridge.claude_cmd]
      simp
      exact continue_ne_of_long (crm_promptPre_long is_admin wd un uid)

/-- Witness for C5 (amended): concrete tracked and untracked senders in
the Slack bridge. -/
theorem c5_witness :
    (SlackBridge.full_prompt ["U1"] "U1" "Alice" none none "hi" = "hi"
      ∧ ("--continue") ∈ SlackBridge.claude_cmd ["U1"] "U1"
          (SlackBridge.full_prompt ["U1"] "U1" "Alice" none none "hi"))
    ∧ (SlackBridge.full_prompt ["U1"] "U2" "Bob" none none "hi"
        = SlackBridge.slackPreText "Bob" none none ++ "hi"
      ∧ SlackBridge.full_prompt ["U1"] "U2" "Bob" none none "hi" ≠ "hi"
      ∧ ("--continue") ∉ SlackBridge.claude_cmd ["U1"] "U2"
          (SlackBridge.full_prompt ["U1"] "U2" "Bob" none none "hi")) :=
  ⟨(c5_prompt_sessions.1 ["U1"] "U1" "Alice" "hi" none none).1 (by decide),
   (c5_prompt_sessions.1 ["U1"] "U2" "Bob" "hi" none none).2 (by decide)⟩

/-- C5 counterexample: in the CRM bridge even a sender with an active
session receives the full context preamble (the prompt is not the raw
message) and the subprocess is never given `--continue`, so the claimed
behaviour fails for that bridge. -/
theorem c5_counterexample :
    CrmBridge.full_prompt false "/work" "alice" "U1" "hi" ≠ "hi"
    ∧ ("--continue") ∉ CrmBridge.claude_cmd
        (CrmBridge.full_prompt false "/work" "alice" "U1" "hi") := by
  constructor
  · exact append_left_ne_right (by have := crm_promptPre_long false "/work" "alice" "U1"; omega)
  · simp only [CrmBridge.full_prompt, CrmBridge.claude_cmd]
    simp
    exact continue_ne_of_long (crm_promptPre_long false "/work" "alice" "U1")

/-- C6 (amended): with more than 5 consecutive failures the CRM bridge
sleeps `min(poll_interval * 2, 30)` seconds — strictly longer than the
configured interval only when that interval is below the 30-second cap —
and with at most 5 failures it sleeps exactly the configured interval;
the counter resets on success, increments on HTTP 502/503/504 and on
connection errors, and is unchanged on other HTTP errors. -/
theorem c6_backoff (p f : Nat) :
    (5 < f → CrmBridge.effective_interval p f = min (p * 2) 30
      ∧ (1 ≤ p → p < 30 → p < CrmBridge.effective_interval p f))
    ∧ (f ≤ 5 → CrmBridge.effective_interval p f = p)
    ∧ (∀ msgs : List String,
        CrmBridge.poll_for_messages (CrmBridge.PollOutcome.success msgs) f = (msgs, 0))
    ∧ (∀ code : Nat, (code = 502 ∨ code = 503 ∨ code = 504) →
        CrmBridge.poll_for_messages (CrmBridge.PollOutcome.httpError code) f = ([], f + 1))
    ∧ (∀ code : Nat, ¬(code = 502 ∨ code = 503 ∨ code = 504) →
        CrmBridge.poll_for_messages (CrmBridge.PollOutcome.httpError code) f = ([], f))
    ∧ CrmBridge.poll_for_messages CrmBridge.PollOutcome.connError f = ([], f + 1) := by
  refine ⟨?_, ?_, ?_, ?_, ?_, rfl⟩
  · intro hf
    constructor
    · simp [CrmBridge.effective_interval, hf]
    · intro h1 h30
      simp only [CrmBridge.effective_interval, if_pos hf]
      omega
  · intro hf
    have : ¬ 5 < f := by omega
    simp [CrmBridge.effective_interval, this]
  · intro msgs; rfl
  · intro code hc; simp [CrmBridge.poll_for_messages, hc]
  · intro code hc; simp [CrmBridge.poll_for_messages, hc]

/-- Witness for C6 (amended): with the default 3-second interval and 6
consecutive failures the sleep doubles to 6 seconds. -/
theorem c6_witness :
    CrmBridge.effective_interval 3 6 = min (3 * 2) 30
    ∧ 3 < CrmBridge.effective_interval 3 6
    ∧ CrmBridge.effective_interval 3 5 = 3 :=
  ⟨((c6_backoff 3 6).1 (by decide)).1,
   ((c6_backoff 3 6).1 (by decide)).2 (by decide) (by decide),
   (c6_backoff 3 5).2.1 (by decide)⟩

/-- C6 counterexample: with a configured interval of 60 seconds and more
than 5 consecutive failures the effective interval is the 30-second cap —
shorter than the configured interval, not longer as claimed. -/
theorem c6_counterexample :
    CrmBridge.effective_interval 60 6 = 30
    ∧ ¬ (60 < CrmBridge.effective_interval 60 6)
    ∧ CrmBridge.effective_interval 30 6 = 30 := by
  exact ⟨by decide, by decide, by decide⟩

/-- C7 (amended): every bridge's `run_claude_code` is total — each
subprocess outcome maps to a reply string and no exception escapes — and
a timeout yields that bridge's canned "took too long" reply; but only the
CRM bridge has a dedicated canned "tool not found" reply: in the Slack
and SMS bridges an absent binary is caught by the generic handler and
yields the truncated error string, like any other exception. -/
theorem c7_failure_replies :
    (∀ o : RelayOutcome,
      (∃ s, SlackBridge.run_claude_code o = s)
      ∧ (∃ s, CrmBridge.run_claude_code o = s)
      ∧ (∃ s, TwilioBridge.run_claude_code o = s))
    ∧ SlackBridge.run_claude_code RelayOutcome.timeout
        = "Sorry, that took too long to process (10 min timeout)."
    ∧ CrmBridge.run_claude_code RelayOutcome.timeout
        = "Sorry, that took too long (5 min timeout). Try a simpler request?"
    ∧ TwilioBridge.run_claude_code RelayOutcome.timeout
        = "Sorry, that took too long (5 min timeout)."
    ∧ (∀ m : String, CrmBridge.run_claude_code (RelayOutcome.notFound m)
        = "Error: Claude Code not found. Make sure \x27claude\x27 is in PATH.")
    ∧ (∀ m : String, SlackBridge.run_claude_code (RelayOutcome.notFound m)
        = "Error running Claude Code: " ++ pyTake 200 m)
    ∧ (∀ m : String, TwilioBridge.run_claude_code (RelayOutcome.notFound m)
        = "Error: " ++ pyTake 100 m)
    ∧ (∀ m : String, SlackBridge.run_claude_code (RelayOutcome.otherError m)
        = "Error running Claude Code: " ++ pyTake 200 m)
    ∧ (∀ m : String, CrmBridge.run_claude_code (RelayOutcome.otherError m)
        = "Error: " ++ pyTake 200 m)
    ∧ (∀ m : String, TwilioBridge.run_claude_code (RelayOutcome.otherError m)
        = "Error: " ++ pyTake 100 m) :=
  ⟨fun o => ⟨⟨_, rfl⟩, ⟨_, rfl⟩, ⟨_, rfl⟩⟩,
   rfl, rfl, rfl,
   fun _ => rfl, fun _ => rfl, fun _ => rfl, fun _ => rfl, fun _ => rfl, fun _ => rfl⟩

/-- C7 counterexample: when the `claude` binary is absent, the Slack
bridge's `run_claude_code` returns the generic truncated error string,
not a canned "tool not found" reply (which only the CRM bridge has). -/
theorem c7_counterexample :
    SlackBridge.run_claude_code
        (RelayOutcome.notFound "[Errno 2] No such file or directory: \x27claude\x27")
      = "Error running Claude Code: [Errno 2] No such file or directory: \x27claude\x27"
    ∧ SlackBridge.run_claude_code
        (RelayOutcome.notFound "[Errno 2] No such file or directory: \x27claude\x27")
      ≠ CrmBridge.run_claude_code
        (RelayOutcome.notFound "[Errno 2] No such file or directory: \x27claude\x27") := by
  exact ⟨by decide, by decide⟩

/-! ## Twitter skill: OAuth loopback, token refresh, credential resolution
(`twitter_skill.py`) -/

namespace TwitterSkill

/-- A saved token set (`tokens/token_<account>.json`): the fields the
credential logic reads. The absolute `expiry` is seconds (the ISO
timestamp of the file, as an instant). -/
structure TwTokens where
  access_token : String
  refresh_token : Option String
  expiry : Option Int
  user_id : Option String
  username : Option String
  name : Option String
deriving DecidableEq

/-- The JSON body of a successful token-endpoint response (exchange or
refresh); `expires_in` may be absent. A non-200 response is modelled as
`none` at the call sites. -/
structure TokenResponse where
  access_token : String
  refresh_token : Option String
  expires_in : Option Int
deriving DecidableEq

/-- `refresh_tokens`: `None` on a non-200 response; otherwise the response
body with an absolute `expiry = now + expires_in` added when
`expires_in` is present. -/
def refresh_tokens (resp : Option TokenResponse) (now : Int) : Option TwTokens :=
  match resp with
  | none => none
  | some r =>
    some { access_token := r.access_token, refresh_token := r.refresh_token,
           expiry := r.expires_in.map (fun s => now + s),
           user_id := none, username := none, name := none }

/-- The query string of one GET hitting the loopback callback server. -/
structure CallbackQuery where
  code : Option String
  error : Option String
  error_description : Option String
  state : Option String
deriving DecidableEq

/-- The mutable fields `do_oauth_flow` reads off the callback server. -/
structure ServerState where
  auth_code : Option String
  auth_error : Option String
deriving DecidableEq

/-- `OAuthCallbackHandler.do_GET`: record the `code` (HTTP 200) or the
`error` (HTTP 400); any other query gets a bare 400. The `state`
parameter is never read. -/
def do_GET (srv : ServerState) (q : CallbackQuery) : ServerState × Nat :=
  if q.code.isSome then ({ srv with auth_code := q.code }, 200)
  else if q.error.isSome then
    ({ srv with auth_error := some (q.error.getD ("Unknown error")) }, 400)
  else (srv, 400)

/-- The `while server.auth_code is None and server.auth_error is None:
server.handle_request()` wait loop, fed the finite sequence of requests
that arrive. -/
def runServer (qs : List CallbackQuery) (srv : ServerState) : ServerState :=
  match qs with
  | [] => srv
  | q :: rest =>
    if srv.auth_code.isSome || srv.auth_error.isSome then srv
    else runServer rest (do_GET srv q).1

/-- `do_oauth_flow` after the browser is opened: wait for the redirect,
abort on a provider `error` or a failed exchange (`sys.exit(1)`, modelled
as `Except.error`), otherwise build the token set with
`expiry = now + expires_in` and attach the `/users/me` profile fields
when that lookup succeeds. A run in which no request ever arrives blocks
forever in the source; it is modelled as an error value. -/
def do_oauth_flow (qs : List CallbackQuery) (exchange : Option TokenResponse)
    (now : Int) (userInfo : Option (String × String × String)) :
    Except String TwTokens :=
  let srv := runServer qs { auth_code := none, auth_error := none }
  match srv.auth_error with
  | some e => Except.error e
  | none =>
    match srv.auth_code with
    | none => Except.error ("no callback received")
    | some _ =>
      match exchange with
      | none => Except.error ("Token exchange failed")
      | some r =>
        let tokens : TwTokens :=
          { access_token := r.access_token, refresh_token := r.refresh_token,
            expiry := r.expires_in.map (fun s => now + s),
            user_id := none, username := none, name := none }
        Except.ok
          (match userInfo with
           | some (uid, uname, nm) =>
             { tokens with user_id := some uid, username := some uname,
                           name := some nm }
           | none => tokens)

/-- What a `get_credentials` call produced: the returned token set,
what (if anything) was written to the token file, and whether the
interactive browser flow ran. -/
structure CredResult where
  tokens : TwTokens
  persisted : Option TwTokens
  ranInteractive : Bool
deriving DecidableEq

/-- `get_credentials`: use the stored tokens if unexpired (wall-clock
`now ≥ expiry` triggers refresh); on expiry with a refresh token, try the
refresh and persist its result (preserving the stored profile fields); on
refresh failure, a missing refresh token, or no stored file, fall back to
the interactive OAuth flow and persist its result. -/
def get_credentials (stored : Option TwTokens) (now : Int)
    (refreshResp : Option TokenResponse) (flowQs : List CallbackQuery)
    (flowExchange : Option TokenResponse)
    (flowUser : Option (String × String × String)) : Except String CredResult :=
  let step : Option (TwTokens × Option TwTokens) :=
    match stored with
    | none => none
    | some t =>
      match t.expiry with
      | none => some (t, none)
      | some e =>
        if e ≤ now then
          match t.refresh_token with
          | some _ =>
            match refresh_tokens refreshResp now with
            | some nt =>
              let nt2 := { nt with user_id := t.user_id, username := t.username,
                                   name := t.name }
              some (nt2, some nt2)
            | none => none
          | none => none
        else some (t, none)
  match step with
  | some (t, pers) =>
    Except.ok { tokens := t, persisted := pers, ranInteractive := false }
  | none =>
    match do_oauth_flow flowQs flowExchange now flowUser with
    | Except.error e => Except.error e
    | Except.ok t =>
      Except.ok { tokens := t, persisted := some t, ranInteractive := true }

/-- `{q with state := s}`: two callback requests differing only in `state`. -/
def setState (q : CallbackQuery) (s : Option String) : CallbackQuery :=
  { q with state := s }

theorem runServer_setState (qs : List CallbackQuery) :
    ∀ (srv : ServerState) (s₁ s₂ : Option String),
    runServer (qs.map (fun q => setState q s₁)) srv
      = runServer (qs.map (fun q => setState q s₂)) srv := by
  induction qs with
  | nil => intro srv s₁ s₂; rfl
  | cons q rest ih =>
    intro srv s₁ s₂
    simp only [List.map_cons, runServer]
    split
    · rfl
    · exact ih _ s₁ s₂

end TwitterSkill

/-- C2 (amended): for a stored token set whose expiry has passed
(wall-clock `now ≥ expiry`) and which has a `refresh_token`, when the
refresh POST succeeds (HTTP 200) with `expires_in ≥ 1`, `get_credentials`
persists a token set whose expiry `now + expires_in` is strictly later
than the previous one and does not run the interactive flow; on refresh
failure it instead falls back to the interactive flow (see the
counterexample). -/
theorem c2_refresh_success (t : TwitterSkill.TwTokens) (e now s : Int)
    (r : TwitterSkill.TokenResponse) (qs : List TwitterSkill.CallbackQuery)
    (fx : Option TwitterSkill.TokenResponse)
    (fu : Option (String × String × String))
    (he : t.expiry = some e) (hp : e ≤ now) (hr : t.refresh_token.isSome)
    (hs : r.expires_in = some s) (h1 : 1 ≤ s) :
    ∃ res : TwitterSkill.CredResult,
      TwitterSkill.get_credentials (some t) now (some r) qs fx fu
        = Except.ok res
      ∧ res.ranInteractive = false
      ∧ res.persisted = some res.tokens
      ∧ res.tokens.expiry = some (now + s)
      ∧ e < now + s := by
  obtain ⟨rtv, hrt⟩ := Option.isSome_iff_exists.mp hr
  obtain ⟨ta, trt, tex, tui, tun, tnm⟩ := t
  dsimp only at he hrt
  subst he
  subst hrt
  refine ⟨⟨⟨r.access_token, r.refresh_token, r.expires_in.map (fun x => now + x),
            tui, tun, tnm⟩,
          some ⟨r.access_token, r.refresh_token,
            r.expires_in.map (fun x => now + x), tui, tun, tnm⟩,
          false⟩, ?_, rfl, rfl, ?_, by omega⟩
  · simp only [TwitterSkill.get_credentials, TwitterSkill.refresh_tokens]
    rw [if_pos hp]
  · dsimp only
    rw [hs]
    rfl

/-- Witness for C2 (amended): a concrete expired token set refreshed with
`expires_in = 7200` at `now = 200`. -/
theorem c2_witness :
    ∃ res : TwitterSkill.CredResult,
      TwitterSkill.get_credentials
        (some { access_token := "old", refresh_token := some ("r"),
                expiry := some 100, user_id := none, username := none,
                name := none })
        200
        (some { access_token := "new", refresh_token := some ("r2"),
                expires_in := some 7200 })
        [] none none
        = Except.ok res
      ∧ res.ranInteractive = false
      ∧ res.persisted = some res.tokens
      ∧ res.tokens.expiry = some (200 + 7200)
      ∧ (100 : Int) < 200 + 7200 :=
  c2_refresh_success
    { access_token := "old", refresh_token := some ("r"), expiry := some 100,
      user_id := none, username := none, name := none }
    100 200 7200
    { access_token := "new", refresh_token := some ("r2"), expires_in := some 7200 }
    [] none none rfl (by norm_num) rfl rfl (by norm_num)

/-- C2 counterexample: a stored token set with past expiry and a present
`refresh_token` for which the refresh POST fails (non-200, modelled as
`none`): `get_credentials` falls back to running the interactive browser
OAuth flow, contradicting the claim that it never does. -/
theorem c2_counterexample :
    (TwitterSkill.get_credentials
        (some { access_token := "old", refresh_token := some ("r"),
                expiry := some 100, user_id := none, username := none,
                name := none })
        100 none
        [{ code := some ("abc"), error := none, error_description := none,
           state := none }]
        (some { access_token := "t2", refresh_token := none,
                expires_in := some 7200 })
        none).map (fun res => res.ranInteractive)
      = Except.ok true := rfl

/-- C8: on the OAuth happy path — a redirect carrying a `code` arrives and
the token-exchange POST returns HTTP 200 with `access_token` and
`expires_in` — the token set persisted by `get_credentials` carries
exactly that access token and the absolute expiry `now + expires_in`. -/
theorem c8_oauth_happy (q : TwitterSkill.CallbackQuery) (c tk : String)
    (s now : Int) (rt : Option String)
    (ui : Option (String × String × String)) (hq : q.code = some c) :
    ∃ res : TwitterSkill.CredResult,
      TwitterSkill.get_credentials none now none [q]
        (some { access_token := tk, refresh_token := rt, expires_in := some s })
        ui
        = Except.ok res
      ∧ res.ranInteractive = true
      ∧ res.persisted = some res.tokens
      ∧ res.tokens.access_token = tk
      ∧ res.tokens.expiry = some (now + s) := by
  obtain ⟨qc, qe, qed, qst⟩ := q
  dsimp only at hq
  subst hq
  rcases ui with _ | ⟨uid, uname, nm⟩
  · exact ⟨⟨⟨tk, rt, some (now + s), none, none, none⟩,
      some ⟨tk, rt, some (now + s), none, none, none⟩, true⟩,
      rfl, rfl, rfl, rfl, rfl⟩
  · exact ⟨⟨⟨tk, rt, some (now + s), some uid, some uname, some nm⟩,
      some ⟨tk, rt, some (now + s), some uid, some uname, some nm⟩, true⟩,
      rfl, rfl, rfl, rfl, rfl⟩

/-- Witness for C8 at the spec's own example: `code="abc123"`, exchange
returning `access_token="t1"`, `expires_in=3600`. -/
theorem c8_witness :
    ∃ res : TwitterSkill.CredResult,
      TwitterSkill.get_credentials none 1000 none
        [{ code := some ("abc123"), error := none, error_description := none,
           state := some ("expectedstate") }]
        (some { access_token := "t1", refresh_token := some ("rt1"),
                expires_in := some 3600 })
        none
        = Except.ok res
      ∧ res.ranInteractive = true
      ∧ res.persisted = some res.tokens
      ∧ res.tokens.access_token = "t1"
      ∧ res.tokens.expiry = some (1000 + 3600) :=
  c8_oauth_happy
    { code := some ("abc123"), error := none, error_description := none,
      state := some ("expectedstate") }
    "abc123" "t1" 3600 1000 (some ("rt1")) none rfl

/-- C10: the loopback callback handler's outcome — the recorded
`auth_code`/`auth_error` and the HTTP status — is identical for any two
requests differing only in their `state` query parameter, and the whole
flow proceeds identically on request sequences differing only in their
`state` values: the generated CSRF state is never compared against the
redirect's. -/
theorem c10_state_independent :
    (∀ (srv : TwitterSkill.ServerState) (q : TwitterSkill.CallbackQuery)
        (s₁ s₂ : Option String),
      TwitterSkill.do_GET srv (TwitterSkill.setState q s₁)
        = TwitterSkill.do_GET srv (TwitterSkill.setState q s₂))
    ∧ (∀ (qs : List TwitterSkill.CallbackQuery)
        (ex : Option TwitterSkill.TokenResponse) (now : Int)
        (ui : Option (String × String × String)) (s₁ s₂ : Option String),
      TwitterSkill.do_oauth_flow (qs.map (fun q => TwitterSkill.setState q s₁))
          ex now ui
        = TwitterSkill.do_oauth_flow (qs.map (fun q => TwitterSkill.setState q s₂))
          ex now ui) := by
  constructor
  · intro srv q s₁ s₂; rfl
  · intro qs ex now ui s₁ s₂
    simp only [TwitterSkill.do_oauth_flow]
    rw [TwitterSkill.runServer_setState qs _ s₁ s₂]

/-! ## Slack bridge: pending-work persistence (`save_pending_work` /
`load_pending_work`) -/

namespace SlackBridge

/-- `save_pending_work`: serialize the map for JSON by joining each
`(channel, ts)` key as `f"{k[0]}|{k[1]}"`; values pass through. -/
def save_pending_work {V : Type} (m : List ((String × String) × V)) :
    List (String × V) :=
  m.map (fun kv => (kv.1.1 ++ "|" ++ kv.1.2, kv.2))

/-- `load_pending_work`: rebuild the map with
`tuple(k.split("|"))` keys (a Python tuple of strings, modelled as a
`List String` since the split may produce any arity); values pass
through. -/
def load_pending_work {V : Type} (d : List (String × V)) :
    List (List String × V) :=
  d.map (fun kv => ((pySplit '|' kv.1.data).map List.asString, kv.2))

theorem pySplit_no_sep (sep : Char) (b : List Char) (h : sep ∉ b) :
    pySplit sep b = [b] := by
  induction b with
  | nil => rfl
  | cons c rest ih =>
    simp only [List.mem_cons, not_or] at h
    have hc : ¬ c = sep := fun e => h.1 e.symm
    simp [pySplit, hc, ih h.2]

theorem pySplit_append (sep : Char) (a b : List Char) (ha : sep ∉ a)
    (hb : sep ∉ b) : pySplit sep (a ++ sep :: b) = [a, b] := by
  induction a with
  | nil =>
    simp [pySplit, pySplit_no_sep sep b hb]
  | cons c a ih =>
    simp only [List.mem_cons, not_or] at ha
    have hc : ¬ c = sep := fun e => ha.1 e.symm
    simp only [List.cons_append, pySplit, List.append_eq, hc, if_false, ih ha.2]

end SlackBridge

/-- C9: for any pending-work map whose channel and timestamp strings are
free of the `'|'` separator, `save_pending_work` followed by
`load_pending_work` reconstructs exactly the original map — each
`(channel, ts)` key round-trips through the joined string and the values
pass through unchanged. -/
theorem c9_roundtrip {V : Type} (m : List ((String × String) × V))
    (h : ∀ kv ∈ m, ('|') ∉ kv.1.1.data ∧ ('|') ∉ kv.1.2.data) :
    SlackBridge.load_pending_work (SlackBridge.save_pending_work m)
      = m.map (fun kv => ([kv.1.1, kv.1.2], kv.2)) := by
  unfold SlackBridge.load_pending_work SlackBridge.save_pending_work
  rw [List.map_map]
  apply List.map_congr_left
  intro kv hkv
  obtain ⟨h1, h2⟩ := h kv hkv
  have hpipe : ("|" : String).data = [('|')] := rfl
  have hdata : (kv.1.1 ++ "|" ++ kv.1.2).data
      = kv.1.1.data ++ ('|') :: kv.1.2.data := by
    rw [String.data_append, String.data_append, hpipe, List.append_assoc,
      List.singleton_append]
  simp only [Function.comp_apply, hdata,
    SlackBridge.pySplit_append ('|') kv.1.1.data kv.1.2.data h1 h2]
  rfl

/-- Witness for C9 at a concrete two-entry map. -/
theorem c9_witness :
    (∀ kv ∈ ([(("C01", "1700.5"), 7), (("D02", "1700.9"), 9)] :
        List ((String × String) × Nat)),
      ('|') ∉ kv.1.1.data ∧ ('|') ∉ kv.1.2.data)
    ∧ SlackBridge.load_pending_work (SlackBridge.save_pending_work
        [(("C01", "1700.5"), 7), (("D02", "1700.9"), 9)])
      = [([("C01" : String), "1700.5"], 7), ([("D02" : String), "1700.9"], 9)] :=
  ⟨by decide,
   c9_roundtrip [(("C01", "1700.5"), 7), (("D02", "1700.9"), 9)] (by decide)⟩
